import Mathlib

/-!
Formal model of the dataset catalog in `ga4gh/datamodel/datasets.py`.

The catalog entities (variant sets, read-group sets, RNA quantifications,
sequence annotations) are opaque to the catalog: it only asks them for
`getId()` and `getLocalId()`.  We model them as records carrying those two
strings plus a `tag` so that distinct entities with equal ids can be told
apart.  Python dictionaries are modelled as association lists where insert
prepends and lookup returns the first match, which reproduces the
overwrite-on-duplicate-key semantics of `d[k] = v`.  Exceptions are
modelled with `Except` over an error type whose constructors are named
after the exception classes raised in the source.
-/

set_option autoImplicit false

/-- A catalog entity: the catalog layer only observes `getId()` (here `id`)
and `getLocalId()` (here `localId`); `tag` distinguishes otherwise equal
entities. -/
structure Entity where
  id : String
  localId : String
  tag : Nat := 0
  deriving DecidableEq, Repr

def dfltEntity : Entity := { id := "", localId := "", tag := 0 }

/-- A Python `dict` keyed by strings, as an association list. -/
abbrev Dict (α : Type) : Type := List (String × α)

/-- `m[k]` / `k in m`: first (most recently inserted) binding of `k`. -/
def dget {α : Type} (m : Dict α) (k : String) : Option α :=
  (m.find? (fun p => p.1 == k)).map (fun p => p.2)

/-- `m[k] = v`: prepend, so a later binding shadows an earlier one. -/
def dinsert {α : Type} (m : Dict α) (k : String) (v : α) : Dict α :=
  (k, v) :: m

/-- `k in m`. -/
def dmem {α : Type} (m : Dict α) (k : String) : Bool :=
  (dget m k).isSome

/-- Errors raised by the catalog layer; constructors are named after the
exception classes used in `datasets.py` (`ga4gh.exceptions`), plus the
built-in errors that Python raises at the marked sites (`IndexError` for
list indexing, `OSError`/`FileNotFoundError` for `os.listdir` on a missing
directory) and an opaque error for collaborator constructor failures. -/
inductive Err where
  | variantSetNotFound (id : String)
  | readGroupNotFound (id : String)
  | readGroupSetNameNotFound (name : String)
  | rnaQuantificationNotFound (id : String)
  | sequenceAnnotationNotFound (id : String)
  | missingDatasetMetadata (path : String) (key : String)
  | indexError
  | missingDirectory (path : String)
  | constructionFailed (msg : String)
  deriving DecidableEq, Repr

/-- State of `AbstractDataset` (`datasets.py`, lines 21-38): four ordered
id lists with their id maps, the read-group-set name map, and the optional
description. -/
structure AbstractDataset where
  localId : String
  variantSetIds : List String
  variantSetIdMap : Dict Entity
  readGroupSetIds : List String
  readGroupSetIdMap : Dict Entity
  readGroupSetNameMap : Dict Entity
  description : Option String
  rnaQuantificationIds : List String
  rnaQuantificationIdMap : Dict Entity
  sequenceAnnotationIds : List String
  sequenceAnnotationIdMap : Dict Entity
  deriving DecidableEq, Repr

/-- `AbstractDataset.__init__`: all collections empty, description unset. -/
def mkDataset (localId : String) : AbstractDataset :=
  { localId := localId
    variantSetIds := []
    variantSetIdMap := []
    readGroupSetIds := []
    readGroupSetIdMap := []
    readGroupSetNameMap := []
    description := none
    rnaQuantificationIds := []
    rnaQuantificationIdMap := []
    sequenceAnnotationIds := []
    sequenceAnnotationIdMap := [] }

/-- `addVariantSet`: `map[id] = vs; ids.append(id)` — no duplicate check. -/
def addVariantSet (ds : AbstractDataset) (variantSet : Entity) : AbstractDataset :=
  { ds with
    variantSetIdMap := dinsert ds.variantSetIdMap variantSet.id variantSet
    variantSetIds := ds.variantSetIds ++ [variantSet.id] }

/-- `addReadGroupSet`: inserts into the id map and the name map (keyed by
`getLocalId()`), appends the id — no duplicate check on either key. -/
def addReadGroupSet (ds : AbstractDataset) (readGroupSet : Entity) : AbstractDataset :=
  { ds with
    readGroupSetIdMap := dinsert ds.readGroupSetIdMap readGroupSet.id readGroupSet
    readGroupSetNameMap := dinsert ds.readGroupSetNameMap readGroupSet.localId readGroupSet
    readGroupSetIds := ds.readGroupSetIds ++ [readGroupSet.id] }

/-- `addRnaQuantification`. -/
def addRnaQuantification (ds : AbstractDataset) (rnaQuant : Entity) : AbstractDataset :=
  { ds with
    rnaQuantificationIdMap := dinsert ds.rnaQuantificationIdMap rnaQuant.id rnaQuant
    rnaQuantificationIds := ds.rnaQuantificationIds ++ [rnaQuant.id] }

/-- `addSequenceAnnotation` (shortened name). -/
def addSequenceAnnot (ds : AbstractDataset) (ann : Entity) : AbstractDataset :=
  { ds with
    sequenceAnnotationIdMap := dinsert ds.sequenceAnnotationIdMap ann.id ann
    sequenceAnnotationIds := ds.sequenceAnnotationIds ++ [ann.id] }

/-- `getVariantSets`: `[map[id_] for id_ in ids]`.  In every reachable
state each listed id has a binding, so the `getD` default is never hit. -/
def getVariantSets (ds : AbstractDataset) : List Entity :=
  ds.variantSetIds.map (fun i => (dget ds.variantSetIdMap i).getD dfltEntity)

/-- `getNumVariantSets`. -/
def getNumVariantSets (ds : AbstractDataset) : Nat :=
  ds.variantSetIds.length

/-- `getVariantSet(id_)`: raises `VariantSetNotFoundException` if absent. -/
def getVariantSet (ds : AbstractDataset) (id_ : String) : Except Err Entity :=
  match dget ds.variantSetIdMap id_ with
  | none => Except.error (Err.variantSetNotFound id_)
  | some v => Except.ok v

/-- Python list indexing `l[i]`: negative indices count from the end;
out of range on both sides raises `IndexError` (here `none`). -/
def pyGet {α : Type} (l : List α) (i : Int) : Option α :=
  if i < 0 then
    if i + l.length < 0 then none else l[(i + l.length).toNat]?
  else l[i.toNat]?

/-- `getVariantSetByIndex(index)`: `map[ids[index]]`. -/
def getVariantSetByIndex (ds : AbstractDataset) (index : Int) : Except Err Entity :=
  match pyGet ds.variantSetIds index with
  | none => Except.error Err.indexError
  | some id_ => Except.ok ((dget ds.variantSetIdMap id_).getD dfltEntity)

/-- `getNumReadGroupSets`. -/
def getNumReadGroupSets (ds : AbstractDataset) : Nat :=
  ds.readGroupSetIds.length

/-- `getReadGroupSets`. -/
def getReadGroupSets (ds : AbstractDataset) : List Entity :=
  ds.readGroupSetIds.map (fun i => (dget ds.readGroupSetIdMap i).getD dfltEntity)

/-- `getReadGroupSetByName(name)`: raises
`ReadGroupSetNameNotFoundException` if absent. -/
def getReadGroupSetByName (ds : AbstractDataset) (name : String) : Except Err Entity :=
  match dget ds.readGroupSetNameMap name with
  | none => Except.error (Err.readGroupSetNameNotFound name)
  | some v => Except.ok v

/-- `getReadGroupSetByIndex(index)`. -/
def getReadGroupSetByIndex (ds : AbstractDataset) (index : Int) : Except Err Entity :=
  match pyGet ds.readGroupSetIds index with
  | none => Except.error Err.indexError
  | some id_ => Except.ok ((dget ds.readGroupSetIdMap id_).getD dfltEntity)

/-- `getReadGroupSet(id_)`: note the source raises
`ReadGroupNotFoundException` here, although its docstring announces a
`ReadGroupSetNotFoundException`. -/
def getReadGroupSet (ds : AbstractDataset) (id_ : String) : Except Err Entity :=
  match dget ds.readGroupSetIdMap id_ with
  | none => Except.error (Err.readGroupNotFound id_)
  | some v => Except.ok v

/-- `getDescription`. -/
def getDescription (ds : AbstractDataset) : Option String :=
  ds.description

/-- `getRnaQuantifications`. -/
def getRnaQuantifications (ds : AbstractDataset) : List Entity :=
  ds.rnaQuantificationIds.map (fun i => (dget ds.rnaQuantificationIdMap i).getD dfltEntity)

/-- `getRnaQuantification(id_)`. -/
def getRnaQuantification (ds : AbstractDataset) (id_ : String) : Except Err Entity :=
  match dget ds.rnaQuantificationIdMap id_ with
  | none => Except.error (Err.rnaQuantificationNotFound id_)
  | some v => Except.ok v

/-- `getSequenceAnnotations`: the source returns
`self._sequenceAnnotationIds` — the id list, not the entities — although
its docstring says it returns the list of sequence annotations. -/
def getSequenceAnnotations (ds : AbstractDataset) : List String :=
  ds.sequenceAnnotationIds

/-- `getSequenceAnnotation(id_)` (shortened name). -/
def getSequenceAnnot (ds : AbstractDataset) (id_ : String) : Except Err Entity :=
  match dget ds.sequenceAnnotationIdMap id_ with
  | none => Except.error (Err.sequenceAnnotationNotFound id_)
  | some v => Except.ok v

/-! ## SimulatedDataset (`datasets.py`, lines 200-231)

The collaborator constructors (`SimulatedVariantSet`,
`SimulatedReadGroupSet`, `SimulatedRNASeqResult`) are external to this
layer; they are modelled as oracles receiving exactly the arguments that
vary across loop iterations: the local id, and for variant sets and
read-group sets the per-entity seed `randomSeed + i`.  The remaining
constructor arguments (`numCalls`, `variantDensity`,
`numReadGroupsPerReadGroupSet`, `numAlignments`, `referenceSet`) are loop
invariants and are absorbed into the oracle. -/

/-- `SimulatedDataset.__init__`. -/
def simulatedDataset (localId : String) (randomSeed numVariantSets numReadGroupSets numRnaQuants : Nat)
    (mkVs mkRgs : String → Nat → Entity) (mkRq : String → Entity) : AbstractDataset :=
  let ds0 : AbstractDataset :=
    { mkDataset localId with description := some ("Simulated dataset " ++ localId) }
  let ds1 := (List.range numVariantSets).foldl
    (fun ds i => addVariantSet ds (mkVs ("simVs" ++ toString i) (randomSeed + i))) ds0
  let ds2 := (List.range numReadGroupSets).foldl
    (fun ds i => addReadGroupSet ds (mkRgs ("simRgs" ++ toString i) (randomSeed + i))) ds1
  (List.range numRnaQuants).foldl
    (fun ds i => addRnaQuantification ds (mkRq ("simRq" ++ toString i))) ds2

/-! ## FileSystemDataset (`datasets.py`, lines 234-285)

The filesystem is modelled by what the loader observes of it: the parsed
sidecar JSON object (or `none` when `os.path.isfile` is false) and, for
each of the four scanned subdirectories, the `os.listdir` listing (or
`none` when the directory is missing, in which case `os.listdir` raises).
Each directory entry carries its name and its `os.path.isdir` answer.
Collaborator constructors (`HtslibVariantSet`, `HtslibReadGroupSet`,
`RNASeqResult`, `SequenceAnnotation`) are oracles from the local id to
`Except Err Entity`; a raised error is propagated by the loader. -/

/-- One `os.listdir` entry. -/
structure DirEntry where
  name : String
  isDir : Bool
  deriving DecidableEq, Repr

/-- The slice of the filesystem read by `FileSystemDataset.__init__`. -/
structure FS where
  metadataFile : Option (Dict String)
  variantsDir : Option (List DirEntry)
  readsDir : Option (List DirEntry)
  rnaQuantDir : Option (List DirEntry)
  seqAnnotDir : Option (List DirEntry)
  deriving DecidableEq, Repr

/-- `FileSystemDataset._setMetadata`: absent sidecar file is not an
error; a present file without a `description` key raises
`MissingDatasetMetadataException(path, key)`. -/
def setMetadata (ds : AbstractDataset) (dataDir : String) (file : Option (Dict String)) :
    Except Err AbstractDataset :=
  let metadataFileName := dataDir ++ ".json"
  match file with
  | none => Except.ok ds
  | some metadata =>
    match dget metadata "description" with
    | some d => Except.ok { ds with description := some d }
    | none => Except.error (Err.missingDatasetMetadata metadataFileName "description")

/-- `fnmatch.fnmatch(filename, '*.bam')` on a POSIX system
(`os.path.normcase` is the identity there, so matching is
case-sensitive): the pattern `*.bam` compiles to the regex `.*\.bam`,
i.e. the name ends with `.bam`. -/
def matchesBam (filename : String) : Bool :=
  ".bam".data.isSuffixOf filename.data

/-- `os.path.splitext(filename)[0]` for a bare filename (CPython
`genericpath._splitext`): split at the last dot unless every character
before it is a dot (so `.bam` has no extension). -/
def splitextRoot (filename : String) : String :=
  let cs := filename.data
  match cs.reverse.findIdx? (fun c => c == '.') with
  | none => filename
  | some j =>
    let i := cs.length - 1 - j
    if (cs.take i).any (fun c => c != '.') then String.mk (cs.take i) else filename

/-- `os.listdir(path)`: raises on a missing directory. -/
def listdir (path : String) (entries : Option (List DirEntry)) : Except Err (List DirEntry) :=
  match entries with
  | none => Except.error (Err.missingDirectory path)
  | some es => Except.ok es

/-- One `for` loop of `FileSystemDataset.__init__`: for each entry that
passes the filter `qual`, construct the resource from `key entry` with
the oracle `mk` and add it with `add`; a constructor error propagates
(the loop body has no handler). -/
def scanList (qual : DirEntry → Bool) (key : DirEntry → String)
    (add : AbstractDataset → Entity → AbstractDataset) (mk : String → Except Err Entity) :
    List DirEntry → AbstractDataset → Except Err AbstractDataset
  | [], ds => Except.ok ds
  | d :: rest, ds =>
    if qual d then
      match mk (key d) with
      | Except.error e => Except.error e
      | Except.ok ent => scanList qual key add mk rest (add ds ent)
    else scanList qual key add mk rest ds

/-- The variants loop: only entries with `os.path.isdir` are added. -/
def scanVariantsList (mk : String → Except Err Entity) :
    List DirEntry → AbstractDataset → Except Err AbstractDataset :=
  scanList (fun d => d.isDir) (fun d => d.name) addVariantSet mk

/-- The reads loop: only filenames matching `*.bam`, keyed by the
`splitext` stem (no `isdir` check). -/
def scanReadsList (mk : String → Except Err Entity) :
    List DirEntry → AbstractDataset → Except Err AbstractDataset :=
  scanList (fun d => matchesBam d.name) (fun d => splitextRoot d.name) addReadGroupSet mk

/-- The rnaQuant loop: only entries with `os.path.isdir`. -/
def scanRnaList (mk : String → Except Err Entity) :
    List DirEntry → AbstractDataset → Except Err AbstractDataset :=
  scanList (fun d => d.isDir) (fun d => d.name) addRnaQuantification mk

/-- The sequenceAnnotations loop: every entry, keyed by the raw name. -/
def scanSeqAnnotList (mk : String → Except Err Entity) :
    List DirEntry → AbstractDataset → Except Err AbstractDataset :=
  scanList (fun _ => true) (fun d => d.name) addSequenceAnnot mk

/-- The `_setMetadata()` call at the top of `__init__`. -/
def stageMeta (localId dataDir : String) (fs : FS) : Except Err AbstractDataset :=
  setMetadata (mkDataset localId) dataDir fs.metadataFile

/-- The variants scan step: `os.listdir(dataDir/variants)` then the loop. -/
def stageVariants (mk : String → Except Err Entity) (dataDir : String) (fs : FS)
    (ds : AbstractDataset) : Except Err AbstractDataset :=
  match listdir (dataDir ++ "/variants") fs.variantsDir with
  | Except.error e => Except.error e
  | Except.ok es => scanVariantsList mk es ds

/-- The reads scan step. -/
def stageReads (mk : String → Except Err Entity) (dataDir : String) (fs : FS)
    (ds : AbstractDataset) : Except Err AbstractDataset :=
  match listdir (dataDir ++ "/reads") fs.readsDir with
  | Except.error e => Except.error e
  | Except.ok es => scanReadsList mk es ds

/-- The rnaQuant scan step. -/
def stageRna (mk : String → Except Err Entity) (dataDir : String) (fs : FS)
    (ds : AbstractDataset) : Except Err AbstractDataset :=
  match listdir (dataDir ++ "/rnaQuant") fs.rnaQuantDir with
  | Except.error e => Except.error e
  | Except.ok es => scanRnaList mk es ds

/-- The sequenceAnnotations scan step. -/
def stageSeqAnnot (mk : String → Except Err Entity) (dataDir : String) (fs : FS)
    (ds : AbstractDataset) : Except Err AbstractDataset :=
  match listdir (dataDir ++ "/sequenceAnnotations") fs.seqAnnotDir with
  | Except.error e => Except.error e
  | Except.ok es => scanSeqAnnotList mk es ds

/-- `FileSystemDataset.__init__`: metadata, then the four scan steps in
order; straight-line code with no exception handler, so the first raised
error escapes and nothing after it runs. -/
def fsInit (localId dataDir : String) (fs : FS)
    (mkVs mkRgs mkRq mkSa : String → Except Err Entity) : Except Err AbstractDataset :=
  match stageMeta localId dataDir fs with
  | Except.error e => Except.error e
  | Except.ok ds =>
  match stageVariants mkVs dataDir fs ds with
  | Except.error e => Except.error e
  | Except.ok ds =>
  match stageReads mkRgs dataDir fs ds with
  | Except.error e => Except.error e
  | Except.ok ds =>
  match stageRna mkRq dataDir fs ds with
  | Except.error e => Except.error e
  | Except.ok ds => stageSeqAnnot mkSa dataDir fs ds

/-- A sequence of `addReadGroupSet` calls. -/
def addAllReadGroupSets (ds : AbstractDataset) (l : List Entity) : AbstractDataset :=
  l.foldl addReadGroupSet ds

/-! ## Concrete instances used by counterexamples and witnesses -/

def entC1a : Entity := { id := "a", localId := "va", tag := 0 }

def entC1b : Entity := { id := "a", localId := "vb", tag := 1 }

/-- A dataset already holding a variant set with id `"a"`. -/
def dsC1 : AbstractDataset := addVariantSet (mkDataset "d") entC1a

def entC2 : Entity := { id := "a1", localId := "ann1.gff", tag := 3 }

/-- A dataset holding one sequence annotation. -/
def dsC2 : AbstractDataset := addSequenceAnnot (mkDataset "d") entC2

def entC3 : Entity := { id := "a", localId := "rg1", tag := 0 }

def entC4 : Entity := { id := "v0", localId := "vs0", tag := 0 }

/-- A dataset with exactly one variant set. -/
def dsC4 : AbstractDataset := addVariantSet (mkDataset "d") entC4

def entC8a : Entity := { id := "a", localId := "n1", tag := 0 }

def entC8b : Entity := { id := "b", localId := "n2", tag := 1 }

def lC8 : List Entity := [entC8a, entC8b]

def entC8x : Entity := { id := "a", localId := "n", tag := 0 }

def entC8y : Entity := { id := "b", localId := "n", tag := 1 }

/-- Two read-group sets with distinct ids but the same local name. -/
def dsC8cex : AbstractDataset := addReadGroupSet (addReadGroupSet (mkDataset "d") entC8x) entC8y

/-- A collaborator constructor that always succeeds. -/
def mkOkEnt : String → Except Err Entity :=
  fun l => Except.ok { id := l, localId := l, tag := 0 }

/-- A read-group-set constructor that fails (e.g. a malformed BAM file). -/
def mkBadRgs : String → Except Err Entity :=
  fun _ => Except.error (Err.constructionFailed "bad bam")

/-- A filesystem whose reads directory holds one BAM file. -/
def fsC9 : FS :=
  { metadataFile := none
    variantsDir := some []
    readsDir := some [{ name := "x.bam", isDir := false }]
    rnaQuantDir := some []
    seqAnnotDir := some [] }

/-! ## Basic dictionary lemmas -/

theorem dget_dinsert_self {α : Type} (m : Dict α) (k : String) (v : α) :
    dget (dinsert m k v) k = some v := by
  unfold dget dinsert
  rw [List.find?_cons_of_pos _ (by simp)]
  rfl

/-! ## C1 -/

/-- C1 (counterexample): the id `"a"` is already present in `dsC1`, yet
adding a second variant set with id `"a"` does not fail and changes the
collection's count (from 1 to 2), contradicting the claim that a
duplicate add fails with a Duplicate error leaving the count unchanged. -/
theorem C1_cex :
    dmem dsC1.variantSetIdMap "a" = true
    ∧ getNumVariantSets (addVariantSet dsC1 entC1b) ≠ getNumVariantSets dsC1 := by
  constructor
  · rfl
  · decide

/-- C1 (amended): no add operation checks for duplicates.  Adding an
entity whose id already exists overwrites the id-map binding and appends
the id again, so the count always grows by one; for read-group sets a
colliding local name likewise silently overwrites the name-map binding. -/
theorem C1_addNeverFails (ds : AbstractDataset) (e : Entity) :
    getNumVariantSets (addVariantSet ds e) = getNumVariantSets ds + 1
    ∧ dget (addVariantSet ds e).variantSetIdMap e.id = some e
    ∧ getNumReadGroupSets (addReadGroupSet ds e) = getNumReadGroupSets ds + 1
    ∧ dget (addReadGroupSet ds e).readGroupSetIdMap e.id = some e
    ∧ dget (addReadGroupSet ds e).readGroupSetNameMap e.localId = some e
    ∧ (addRnaQuantification ds e).rnaQuantificationIds.length
        = ds.rnaQuantificationIds.length + 1
    ∧ (addSequenceAnnot ds e).sequenceAnnotationIds.length
        = ds.sequenceAnnotationIds.length + 1 := by
  refine ⟨?_, ?_, ?_, ?_, ?_, ?_, ?_⟩ <;>
    simp [getNumVariantSets, getNumReadGroupSets, addVariantSet, addReadGroupSet,
      addRnaQuantification, addSequenceAnnot, dget_dinsert_self]

/-! ## C2 -/

/-- C2 (code bug, evaluation): on a dataset holding one sequence
annotation with id `"a1"`, `getSequenceAnnotations` returns the id list
`["a1"]`, not the annotation entities its docstring promises; the entity
itself sits in the id map, and the analogous variant-set accessor does
return entities. -/
theorem C2_eval :
    getSequenceAnnotations dsC2 = [entC2.id]
    ∧ dget dsC2.sequenceAnnotationIdMap "a1" = some entC2
    ∧ getVariantSets (addVariantSet (mkDataset "d") entC2) = [entC2] := by
  refine ⟨rfl, by decide, by decide⟩

/-! ## C3 -/

/-- C3 (code bug, evaluation): each by-id lookup on an empty dataset
fails with the error its call site raises; `getVariantSet`,
`getRnaQuantification` and the sequence-annotation lookup raise errors
naming their resource kind, but `getReadGroupSet` raises
`ReadGroupNotFoundException` — the read-group kind, not the
read-group-set kind its docstring announces.  A present id is returned. -/
theorem C3_eval :
    getReadGroupSet (mkDataset "d") "x" = Except.error (Err.readGroupNotFound "x")
    ∧ getVariantSet (mkDataset "d") "x" = Except.error (Err.variantSetNotFound "x")
    ∧ getRnaQuantification (mkDataset "d") "x"
        = Except.error (Err.rnaQuantificationNotFound "x")
    ∧ getSequenceAnnot (mkDataset "d") "x"
        = Except.error (Err.sequenceAnnotationNotFound "x")
    ∧ getReadGroupSet (addReadGroupSet (mkDataset "d") entC3) entC3.id
        = Except.ok entC3 := by
  refine ⟨rfl, rfl, rfl, rfl, rfl⟩

/-! ## C5 -/

/-- C5 (confirmed): `_setMetadata` succeeds without touching the dataset
when the sidecar file is absent (a fresh dataset's description is the
absent sentinel `none`); a present file lacking the `description` key
fails with `MissingDatasetMetadataException` naming the sidecar path and
the `description` key; a present `description` key is stored and returned
by `getDescription`. -/
theorem C5_metadata (ds : AbstractDataset) (dataDir : String) :
    setMetadata ds dataDir none = Except.ok ds
    ∧ (∀ kvs : Dict String, dget kvs "description" = none →
        setMetadata ds dataDir (some kvs)
          = Except.error (Err.missingDatasetMetadata (dataDir ++ ".json") "description"))
    ∧ (∀ (kvs : Dict String) (v : String), dget kvs "description" = some v →
        setMetadata ds dataDir (some kvs) = Except.ok { ds with description := some v }
          ∧ getDescription { ds with description := some v } = some v)
    ∧ getDescription (mkDataset dataDir) = none := by
  refine ⟨rfl, ?_, ?_, rfl⟩
  · intro kvs h
    simp [setMetadata, h]
  · intro kvs v h
    exact ⟨by simp [setMetadata, h], rfl⟩

/-- C5 (witness): the spec's scenario — a sidecar holding only a `name`
key makes the load fail with the metadata error naming the path and the
`description` key. -/
theorem C5_witness :
    setMetadata (mkDataset "d") "data" (some [("name", "foo")])
      = Except.error (Err.missingDatasetMetadata ("data" ++ ".json") "description") :=
  (C5_metadata (mkDataset "d") "data").2.1 [("name", "foo")] (by decide)

/-! ## Scan-loop lemmas -/

/-- A scan loop whose constructor always succeeds adds exactly the
entries passing the filter, in listing order, and never fails. -/
theorem scanList_total (qual : DirEntry → Bool) (key : DirEntry → String)
    (add : AbstractDataset → Entity → AbstractDataset) (mk : String → Entity)
    (entries : List DirEntry) (ds : AbstractDataset) :
    scanList qual key add (fun l => Except.ok (mk l)) entries ds
      = Except.ok (entries.foldl
          (fun d e => if qual e then add d (mk (key e)) else d) ds) := by
  induction entries generalizing ds with
  | nil => rfl
  | cons e t ih => by_cases h : qual e <;> simp [scanList, h, ih]

/-! ## C6 -/

/-- C6 (confirmed): with a succeeding constructor, the reads scan adds a
read-group set exactly for the filenames matching `*.bam`
(case-sensitively — `.BAM` is skipped), keyed by the `splitext` stem, and
skips every other filename silently (the scan still succeeds). -/
theorem C6_readsFilter (mk : String → Entity) (entries : List DirEntry) (ds : AbstractDataset) :
    scanReadsList (fun l => Except.ok (mk l)) entries ds
      = Except.ok (entries.foldl
          (fun d e => if matchesBam e.name
            then addReadGroupSet d (mk (splitextRoot e.name)) else d) ds)
    ∧ matchesBam "rg1.bam" = true
    ∧ matchesBam "rg1.BAM" = false
    ∧ matchesBam "notes.txt" = false
    ∧ splitextRoot "rg1.bam" = "rg1"
    ∧ splitextRoot "a.b.bam" = "a.b" := by
  refine ⟨scanList_total _ _ _ mk entries ds, ?_, ?_, ?_, ?_, ?_⟩ <;> decide

/-! ## C10 -/

/-- C10 (confirmed): with succeeding constructors, the variants and
rnaQuant scans add exactly the entries that are directories (non-directory
entries are skipped silently, the scan succeeding), while the
sequenceAnnotations scan adds every entry unconditionally, keyed by the
raw entry name. -/
theorem C10_scanFilters (mkV mkQ mkS : String → Entity) (entries : List DirEntry)
    (ds : AbstractDataset) :
    scanVariantsList (fun l => Except.ok (mkV l)) entries ds
      = Except.ok (entries.foldl
          (fun d e => if e.isDir then addVariantSet d (mkV e.name) else d) ds)
    ∧ scanRnaList (fun l => Except.ok (mkQ l)) entries ds
      = Except.ok (entries.foldl
          (fun d e => if e.isDir then addRnaQuantification d (mkQ e.name) else d) ds)
    ∧ scanSeqAnnotList (fun l => Except.ok (mkS l)) entries ds
      = Except.ok (entries.foldl (fun d e => addSequenceAnnot d (mkS e.name)) ds) := by
  refine ⟨scanList_total _ _ _ mkV entries ds, scanList_total _ _ _ mkQ entries ds, ?_⟩
  have h := scanList_total (fun _ => true) (fun d => d.name) addSequenceAnnot mkS entries ds
  simpa using h

/-! ## Fold lemmas for the simulated dataset -/

theorem vsFold_variantSetIds {α : Type} (l : List α) (f : α → Entity) (ds : AbstractDataset) :
    (l.foldl (fun d a => addVariantSet d (f a)) ds).variantSetIds
      = ds.variantSetIds ++ l.map (fun a => (f a).id) := by
  induction l generalizing ds with
  | nil => simp
  | cons a t ih =>
    rw [List.foldl_cons, ih]
    simp [addVariantSet]

theorem vsFold_readGroupSetIds {α : Type} (l : List α) (f : α → Entity) (ds : AbstractDataset) :
    (l.foldl (fun d a => addVariantSet d (f a)) ds).readGroupSetIds = ds.readGroupSetIds := by
  induction l generalizing ds with
  | nil => rfl
  | cons a t ih =>
    rw [List.foldl_cons, ih]
    simp [addVariantSet]

theorem vsFold_rnaQuantificationIds {α : Type} (l : List α) (f : α → Entity) (ds : AbstractDataset) :
    (l.foldl (fun d a => addVariantSet d (f a)) ds).rnaQuantificationIds
      = ds.rnaQuantificationIds := by
  induction l generalizing ds with
  | nil => rfl
  | cons a t ih =>
    rw [List.foldl_cons, ih]
    simp [addVariantSet]

theorem vsFold_description {α : Type} (l : List α) (f : α → Entity) (ds : AbstractDataset) :
    (l.foldl (fun d a => addVariantSet d (f a)) ds).description = ds.description := by
  induction l generalizing ds with
  | nil => rfl
  | cons a t ih =>
    rw [List.foldl_cons, ih]
    simp [addVariantSet]

theorem rgsFold_readGroupSetIds {α : Type} (l : List α) (f : α → Entity) (ds : AbstractDataset) :
    (l.foldl (fun d a => addReadGroupSet d (f a)) ds).readGroupSetIds
      = ds.readGroupSetIds ++ l.map (fun a => (f a).id) := by
  induction l generalizing ds with
  | nil => simp
  | cons a t ih =>
    rw [List.foldl_cons, ih]
    simp [addReadGroupSet]

theorem rgsFold_variantSetIds {α : Type} (l : List α) (f : α → Entity) (ds : AbstractDataset) :
    (l.foldl (fun d a => addReadGroupSet d (f a)) ds).variantSetIds = ds.variantSetIds := by
  induction l generalizing ds with
  | nil => rfl
  | cons a t ih =>
    rw [List.foldl_cons, ih]
    simp [addReadGroupSet]

theorem rgsFold_rnaQuantificationIds {α : Type} (l : List α) (f : α → Entity) (ds : AbstractDataset) :
    (l.foldl (fun d a => addReadGroupSet d (f a)) ds).rnaQuantificationIds
      = ds.rnaQuantificationIds := by
  induction l generalizing ds with
  | nil => rfl
  | cons a t ih =>
    rw [List.foldl_cons, ih]
    simp [addReadGroupSet]

theorem rgsFold_description {α : Type} (l : List α) (f : α → Entity) (ds : AbstractDataset) :
    (l.foldl (fun d a => addReadGroupSet d (f a)) ds).description = ds.description := by
  induction l generalizing ds with
  | nil => rfl
  | cons a t ih =>
    rw [List.foldl_cons, ih]
    simp [addReadGroupSet]

theorem rqFold_rnaQuantificationIds {α : Type} (l : List α) (f : α → Entity) (ds : AbstractDataset) :
    (l.foldl (fun d a => addRnaQuantification d (f a)) ds).rnaQuantificationIds
      = ds.rnaQuantificationIds ++ l.map (fun a => (f a).id) := by
  induction l generalizing ds with
  | nil => simp
  | cons a t ih =>
    rw [List.foldl_cons, ih]
    simp [addRnaQuantification]

theorem rqFold_variantSetIds {α : Type} (l : List α) (f : α → Entity) (ds : AbstractDataset) :
    (l.foldl (fun d a => addRnaQuantification d (f a)) ds).variantSetIds = ds.variantSetIds := by
  induction l generalizing ds with
  | nil => rfl
  | cons a t ih =>
    rw [List.foldl_cons, ih]
    simp [addRnaQuantification]

theorem rqFold_readGroupSetIds {α : Type} (l : List α) (f : α → Entity) (ds : AbstractDataset) :
    (l.foldl (fun d a => addRnaQuantification d (f a)) ds).readGroupSetIds
      = ds.readGroupSetIds := by
  induction l generalizing ds with
  | nil => rfl
  | cons a t ih =>
    rw [List.foldl_cons, ih]
    simp [addRnaQuantification]

theorem rqFold_description {α : Type} (l : List α) (f : α → Entity) (ds : AbstractDataset) :
    (l.foldl (fun d a => addRnaQuantification d (f a)) ds).description = ds.description := by
  induction l generalizing ds with
  | nil => rfl
  | cons a t ih =>
    rw [List.foldl_cons, ih]
    simp [addRnaQuantification]

/-! ## C7 -/

/-- C7 (confirmed): the simulated dataset builds, in this order, exactly
`nV` variant sets from local ids `simVs0..` with per-entity seed
`seed + i`, `nR` read-group sets from `simRgs0..` with seed `seed + i`,
and `nQ` RNA quantifications from `simRq0..`; each ordered id list is a
function of `(seed, counts)` and the collaborator constructors alone, so
two runs with identical inputs produce identical ordered id lists. -/
theorem C7_simulated (localId : String) (seed nV nR nQ : Nat)
    (mkVs mkRgs : String → Nat → Entity) (mkRq : String → Entity) :
    (simulatedDataset localId seed nV nR nQ mkVs mkRgs mkRq).variantSetIds
        = (List.range nV).map (fun i => (mkVs ("simVs" ++ toString i) (seed + i)).id)
    ∧ (simulatedDataset localId seed nV nR nQ mkVs mkRgs mkRq).readGroupSetIds
        = (List.range nR).map (fun i => (mkRgs ("simRgs" ++ toString i) (seed + i)).id)
    ∧ (simulatedDataset localId seed nV nR nQ mkVs mkRgs mkRq).rnaQuantificationIds
        = (List.range nQ).map (fun i => (mkRq ("simRq" ++ toString i)).id)
    ∧ getNumVariantSets (simulatedDataset localId seed nV nR nQ mkVs mkRgs mkRq) = nV
    ∧ getNumReadGroupSets (simulatedDataset localId seed nV nR nQ mkVs mkRgs mkRq) = nR
    ∧ (simulatedDataset localId seed nV nR nQ mkVs mkRgs mkRq).rnaQuantificationIds.length = nQ
    ∧ (simulatedDataset localId seed nV nR nQ mkVs mkRgs mkRq).description
        = some ("Simulated dataset " ++ localId) := by
  refine ⟨?_, ?_, ?_, ?_, ?_, ?_, ?_⟩ <;>
    simp [simulatedDataset, getNumVariantSets, getNumReadGroupSets, mkDataset,
      vsFold_variantSetIds, vsFold_readGroupSetIds, vsFold_rnaQuantificationIds,
      vsFold_description, rgsFold_readGroupSetIds, rgsFold_variantSetIds,
      rgsFold_rnaQuantificationIds, rgsFold_description, rqFold_rnaQuantificationIds,
      rqFold_variantSetIds, rqFold_readGroupSetIds, rqFold_description]

/-! ## Python list-indexing lemmas -/

theorem pyGet_eq_none_iff {α : Type} (l : List α) (i : Int) :
    pyGet l i = none ↔ i < -(l.length : Int) ∨ (l.length : Int) ≤ i := by
  unfold pyGet
  by_cases h : i < 0
  · rw [if_pos h]
    by_cases h2 : i + (l.length : Int) < 0
    · rw [if_pos h2]
      constructor
      · intro _; left; omega
      · intro _; rfl
    · rw [if_neg h2]
      rw [List.getElem?_eq_none_iff]
      omega
  · rw [if_neg h]
    rw [List.getElem?_eq_none_iff]
    omega

theorem pyGet_natCast {α : Type} (l : List α) (j : Nat) :
    pyGet l (j : Int) = l[j]? := by
  unfold pyGet
  rw [if_neg (by omega)]
  simp

theorem pyGet_neg {α : Type} (l : List α) (i : Int)
    (h1 : -(l.length : Int) ≤ i) (h2 : i < 0) :
    pyGet l i = l[(i + l.length).toNat]? := by
  unfold pyGet
  rw [if_pos h2, if_neg (by omega)]

/-! ## C4 -/

/-- C4 (counterexample): on a dataset with one variant set, the index
`-1` is outside `0 <= i < count`, yet `getVariantSetByIndex (-1)` does
not fail — Python's negative indexing returns the last entity. -/
theorem C4_cex : ¬ ∃ err, getVariantSetByIndex dsC4 (-1) = Except.error err := by
  rintro ⟨err, he⟩
  have hok : getVariantSetByIndex dsC4 (-1) = Except.ok entC4 := rfl
  rw [hok] at he
  exact Except.noConfusion he

/-- C4 (amended): `getVariantSetByIndex(i)` and
`getReadGroupSetByIndex(i)` fail (with Python's `IndexError`) exactly
when `i < -count` or `i >= count`; every `i` with `0 <= i < count`
returns the entity at position `i` of the insertion order, and negative
`i` with `-count <= i < 0` indexes from the end, returning the entity at
position `count + i` of the insertion order. -/
theorem C4_amended (ds : AbstractDataset) (i : Int) :
    ((∃ err, getVariantSetByIndex ds i = Except.error err) ↔
      (i < -(getNumVariantSets ds : Int) ∨ (getNumVariantSets ds : Int) ≤ i))
    ∧ ((∃ err, getReadGroupSetByIndex ds i = Except.error err) ↔
      (i < -(getNumReadGroupSets ds : Int) ∨ (getNumReadGroupSets ds : Int) ≤ i))
    ∧ (∀ j : Nat, j < getNumVariantSets ds →
        ∃ e, (getVariantSets ds)[j]? = some e
          ∧ getVariantSetByIndex ds (j : Int) = Except.ok e)
    ∧ (∀ j : Nat, j < getNumReadGroupSets ds →
        ∃ e, (getReadGroupSets ds)[j]? = some e
          ∧ getReadGroupSetByIndex ds (j : Int) = Except.ok e)
    ∧ (∀ i2 : Int, -(getNumVariantSets ds : Int) ≤ i2 → i2 < 0 →
        ∃ e, (getVariantSets ds)[(i2 + (getNumVariantSets ds : Int)).toNat]? = some e
          ∧ getVariantSetByIndex ds i2 = Except.ok e)
    ∧ (∀ i2 : Int, -(getNumReadGroupSets ds : Int) ≤ i2 → i2 < 0 →
        ∃ e, (getReadGroupSets ds)[(i2 + (getNumReadGroupSets ds : Int)).toNat]? = some e
          ∧ getReadGroupSetByIndex ds i2 = Except.ok e) := by
  refine ⟨?_, ?_, ?_, ?_, ?_, ?_⟩
  · unfold getNumVariantSets
    rw [← pyGet_eq_none_iff ds.variantSetIds i]
    unfold getVariantSetByIndex
    cases hp : pyGet ds.variantSetIds i <;> simp [hp]
  · unfold getNumReadGroupSets
    rw [← pyGet_eq_none_iff ds.readGroupSetIds i]
    unfold getReadGroupSetByIndex
    cases hp : pyGet ds.readGroupSetIds i <;> simp [hp]
  · intro j hj
    have hj' : j < ds.variantSetIds.length := hj
    refine ⟨(dget ds.variantSetIdMap ds.variantSetIds[j]).getD dfltEntity, ?_, ?_⟩
    · unfold getVariantSets
      rw [List.getElem?_map, List.getElem?_eq_getElem hj']
      rfl
    · unfold getVariantSetByIndex
      rw [pyGet_natCast, List.getElem?_eq_getElem hj']
  · intro j hj
    have hj' : j < ds.readGroupSetIds.length := hj
    refine ⟨(dget ds.readGroupSetIdMap ds.readGroupSetIds[j]).getD dfltEntity, ?_, ?_⟩
    · unfold getReadGroupSets
      rw [List.getElem?_map, List.getElem?_eq_getElem hj']
      rfl
    · unfold getReadGroupSetByIndex
      rw [pyGet_natCast, List.getElem?_eq_getElem hj']
  · intro i2 hge hlt
    unfold getNumVariantSets at hge ⊢
    have hj' : (i2 + (ds.variantSetIds.length : Int)).toNat < ds.variantSetIds.length := by
      omega
    refine ⟨(dget ds.variantSetIdMap
      ds.variantSetIds[(i2 + (ds.variantSetIds.length : Int)).toNat]).getD dfltEntity, ?_, ?_⟩
    · unfold getVariantSets
      rw [List.getElem?_map, List.getElem?_eq_getElem hj']
      rfl
    · unfold getVariantSetByIndex
      rw [pyGet_neg ds.variantSetIds i2 hge hlt, List.getElem?_eq_getElem hj']
  · intro i2 hge hlt
    unfold getNumReadGroupSets at hge ⊢
    have hj' : (i2 + (ds.readGroupSetIds.length : Int)).toNat < ds.readGroupSetIds.length := by
      omega
    refine ⟨(dget ds.readGroupSetIdMap
      ds.readGroupSetIds[(i2 + (ds.readGroupSetIds.length : Int)).toNat]).getD dfltEntity, ?_, ?_⟩
    · unfold getReadGroupSets
      rw [List.getElem?_map, List.getElem?_eq_getElem hj']
      rfl
    · unfold getReadGroupSetByIndex
      rw [pyGet_neg ds.readGroupSetIds i2 hge hlt, List.getElem?_eq_getElem hj']

/-- C4 (witness): on the one-element dataset, position 0 is returned,
and the negative in-range index `-1` returns the entity at position
`count + (-1) = 0` — the same entity. -/
theorem C4_witness :
    getVariantSetByIndex dsC4 ((0 : Nat) : Int) = Except.ok entC4
    ∧ getVariantSetByIndex dsC4 (-1) = Except.ok entC4 := by
  constructor
  · obtain ⟨e, he1, he2⟩ := (C4_amended dsC4 0).2.2.1 0 (by decide)
    have hval : (getVariantSets dsC4)[0]? = some entC4 := rfl
    rw [hval] at he1
    injection he1 with h
    rw [← h] at he2
    exact he2
  · obtain ⟨e, he1, he2⟩ := (C4_amended dsC4 0).2.2.2.2.1 (-1) (by decide) (by decide)
    have hval : (getVariantSets dsC4)[((-1 : Int)
      + (getNumVariantSets dsC4 : Int)).toNat]? = some entC4 := rfl
    rw [hval] at he1
    injection he1 with h
    rw [← h] at he2
    exact he2

/-! ## Dictionary lemmas for the name/id invariant -/

theorem dget_cons {α : Type} (p : String × α) (t : Dict α) (k : String) :
    dget (p :: t) k = if p.1 == k then some p.2 else dget t k := by
  unfold dget
  by_cases h : p.1 == k
  · simp [List.find?_cons_of_pos, h]
  · simp [List.find?_cons_of_neg, h]

/-- In a dictionary with pairwise distinct keys, a lookup hits exactly
the bindings that are present. -/
theorem dget_eq_some_iff {α : Type} (m : Dict α) (k : String) (v : α)
    (hm : (m.map Prod.fst).Nodup) : dget m k = some v ↔ (k, v) ∈ m := by
  induction m with
  | nil => simp [dget]
  | cons p t ih =>
    obtain ⟨k', v'⟩ := p
    rw [List.map_cons, List.nodup_cons] at hm
    obtain ⟨hk', ht⟩ := hm
    rw [dget_cons, List.mem_cons]
    by_cases h : (k' : String) == k
    · have hkk : k' = k := by simpa using h
      subst hkk
      rw [if_pos h]
      constructor
      · intro hv
        left
        have hvv : v' = v := by simpa using hv
        rw [hvv]
      · rintro (h1 | h2)
        · have hvv : v = v' := by simpa using h1
          rw [hvv]
        · exact absurd (List.mem_map_of_mem Prod.fst h2) hk'
    · rw [if_neg h]
      have hne : k' ≠ k := by simpa using h
      rw [ih ht]
      constructor
      · intro h2; right; exact h2
      · rintro (h1 | h2)
        · exact absurd (congrArg Prod.fst h1).symm hne
        · exact h2

theorem mem_pairs_reverse (f : Entity → String) (l : List Entity) (k : String) (v : Entity) :
    (k, v) ∈ (l.map (fun e => (f e, e))).reverse ↔ (v ∈ l ∧ f v = k) := by
  rw [List.mem_reverse, List.mem_map]
  constructor
  · rintro ⟨e, he, heq⟩
    have h1 : f e = k := congrArg Prod.fst heq
    have h2 : e = v := congrArg Prod.snd heq
    subst h2
    exact ⟨he, h1⟩
  · rintro ⟨hv, hk⟩
    exact ⟨v, hv, by rw [hk]⟩

theorem pairs_reverse_keys_nodup (f : Entity → String) (l : List Entity)
    (h : (l.map f).Nodup) :
    (((l.map (fun e => (f e, e))).reverse).map Prod.fst).Nodup := by
  simpa [List.map_reverse, List.map_map, List.nodup_reverse, Function.comp] using h

/-! ## addAllReadGroupSets acting on the two maps -/

theorem addAll_rgs_idMap (ds : AbstractDataset) (l : List Entity) :
    (addAllReadGroupSets ds l).readGroupSetIdMap
      = (l.map (fun e => (e.id, e))).reverse ++ ds.readGroupSetIdMap := by
  induction l generalizing ds with
  | nil => simp [addAllReadGroupSets]
  | cons e t ih =>
    show (addAllReadGroupSets (addReadGroupSet ds e) t).readGroupSetIdMap = _
    rw [ih]
    simp [addReadGroupSet, dinsert]

theorem addAll_rgs_nameMap (ds : AbstractDataset) (l : List Entity) :
    (addAllReadGroupSets ds l).readGroupSetNameMap
      = (l.map (fun e => (e.localId, e))).reverse ++ ds.readGroupSetNameMap := by
  induction l generalizing ds with
  | nil => simp [addAllReadGroupSets]
  | cons e t ih =>
    show (addAllReadGroupSets (addReadGroupSet ds e) t).readGroupSetNameMap = _
    rw [ih]
    simp [addReadGroupSet, dinsert]

/-! ## C8 -/

/-- C8 (counterexample): after adding two read-group sets with distinct
ids `"a"`, `"b"` but the same local name (no error is raised), the first
entity is still retrievable from the id map but is retrievable under no
name — the name map and the id collection no longer contain the same set
of entities. -/
theorem C8_cex :
    (∃ k, dget dsC8cex.readGroupSetIdMap k = some entC8x)
    ∧ ¬ ∃ n, dget dsC8cex.readGroupSetNameMap n = some entC8x := by
  constructor
  · exact ⟨"a", by decide⟩
  · rintro ⟨n, hn⟩
    have hstep : dget dsC8cex.readGroupSetNameMap n
        = if ("n" : String) == n then some entC8y else none := by
      by_cases h : ("n" : String) == n <;>
        simp [dsC8cex, addReadGroupSet, mkDataset, dinsert, dget_cons, dget,
          entC8x, entC8y, h]
    rw [hstep] at hn
    by_cases h : ("n" : String) == n
    · rw [if_pos h] at hn
      exact absurd hn (by decide)
    · rw [if_neg h] at hn
      exact Option.noConfusion hn

/-- C8 (amended): in every state reached by a sequence of
`addReadGroupSet` calls whose entities have pairwise-distinct ids and
pairwise-distinct local names, the name map and the id collection hold
exactly the same entities, and any entity retrievable by name is
retrievable via `getReadGroupSet` under its own id. -/
theorem C8_amended (nm : String) (l : List Entity)
    (hid : (l.map Entity.id).Nodup) (hname : (l.map Entity.localId).Nodup) :
    (∀ e : Entity,
        (∃ n, dget (addAllReadGroupSets (mkDataset nm) l).readGroupSetNameMap n = some e)
          ↔ ∃ k, dget (addAllReadGroupSets (mkDataset nm) l).readGroupSetIdMap k = some e)
    ∧ (∀ (n : String) (e : Entity),
        getReadGroupSetByName (addAllReadGroupSets (mkDataset nm) l) n = Except.ok e →
          getReadGroupSet (addAllReadGroupSets (mkDataset nm) l) e.id = Except.ok e) := by
  have hmapId : (addAllReadGroupSets (mkDataset nm) l).readGroupSetIdMap
      = (l.map (fun e => (e.id, e))).reverse := by
    rw [addAll_rgs_idMap]
    simp [mkDataset]
  have hmapName : (addAllReadGroupSets (mkDataset nm) l).readGroupSetNameMap
      = (l.map (fun e => (e.localId, e))).reverse := by
    rw [addAll_rgs_nameMap]
    simp [mkDataset]
  have hkId := pairs_reverse_keys_nodup Entity.id l hid
  have hkName := pairs_reverse_keys_nodup Entity.localId l hname
  have hgetName : ∀ (n : String) (e : Entity),
      dget (addAllReadGroupSets (mkDataset nm) l).readGroupSetNameMap n = some e
        ↔ (e ∈ l ∧ e.localId = n) := by
    intro n e
    rw [hmapName, dget_eq_some_iff _ n e hkName, mem_pairs_reverse Entity.localId]
  have hgetId : ∀ (k : String) (e : Entity),
      dget (addAllReadGroupSets (mkDataset nm) l).readGroupSetIdMap k = some e
        ↔ (e ∈ l ∧ e.id = k) := by
    intro k e
    rw [hmapId, dget_eq_some_iff _ k e hkId, mem_pairs_reverse Entity.id]
  constructor
  · intro e
    constructor
    · rintro ⟨n, hn⟩
      exact ⟨e.id, (hgetId e.id e).mpr ⟨((hgetName n e).mp hn).1, rfl⟩⟩
    · rintro ⟨k, hk⟩
      exact ⟨e.localId, (hgetName e.localId e).mpr ⟨((hgetId k e).mp hk).1, rfl⟩⟩
  · intro n e hok
    have hd : dget (addAllReadGroupSets (mkDataset nm) l).readGroupSetNameMap n
        = some e := by
      unfold getReadGroupSetByName at hok
      cases hd2 : dget (addAllReadGroupSets (mkDataset nm) l).readGroupSetNameMap n with
      | none =>
        rw [hd2] at hok
        exact Except.noConfusion hok
      | some v =>
        rw [hd2] at hok
        injection hok with hv
        rw [hv]
    have h1 := (hgetName n e).mp hd
    have h3 : dget (addAllReadGroupSets (mkDataset nm) l).readGroupSetIdMap e.id
        = some e := (hgetId e.id e).mpr ⟨h1.1, rfl⟩
    unfold getReadGroupSet
    rw [h3]

/-- C8 (witness): with two distinctly named, distinctly identified
read-group sets, the entity found under name `"n1"` is retrievable via
`getReadGroupSet` at its id. -/
theorem C8_witness :
    getReadGroupSet (addAllReadGroupSets (mkDataset "d") lC8) entC8a.id
      = Except.ok entC8a :=
  (C8_amended "d" lC8 (by decide) (by decide)).2 "n1" entC8a rfl

/-! ## Abort behaviour of the scan loops -/

theorem scanList_append (qual : DirEntry → Bool) (key : DirEntry → String)
    (add : AbstractDataset → Entity → AbstractDataset) (mk : String → Except Err Entity)
    (l1 l2 : List DirEntry) (ds : AbstractDataset) :
    scanList qual key add mk (l1 ++ l2) ds
      = match scanList qual key add mk l1 ds with
        | Except.error e => Except.error e
        | Except.ok ds2 => scanList qual key add mk l2 ds2 := by
  induction l1 generalizing ds with
  | nil => simp [scanList]
  | cons d t ih =>
    simp only [List.cons_append, scanList]
    by_cases h : qual d
    · rw [if_pos h, if_pos h]
      cases mk (key d) with
      | error e => rfl
      | ok ent => exact ih (add ds ent)
    · rw [if_neg h, if_neg h]
      exact ih ds

/-- If one scan loop entry qualifies and its constructor fails, the
whole loop fails with that error, whatever follows the entry. -/
theorem scanList_abort (qual : DirEntry → Bool) (key : DirEntry → String)
    (add : AbstractDataset → Entity → AbstractDataset) (mk : String → Except Err Entity)
    (pre post : List DirEntry) (d : DirEntry) (ds ds2 : AbstractDataset) (e : Err)
    (hpre : scanList qual key add mk pre ds = Except.ok ds2)
    (hq : qual d = true) (hmk : mk (key d) = Except.error e) :
    scanList qual key add mk (pre ++ d :: post) ds = Except.error e := by
  rw [scanList_append, hpre]
  simp [scanList, hq, hmk]

/-! ## C9 -/

/-- C9 (confirmed): every scan-step failure aborts the load.  A missing
resource subdirectory makes its stage fail with the missing-directory
error; an error from the metadata stage or any scan stage is the result
of the whole load, unchanged, so no later stage runs; and inside a scan
loop a failing constructor on a qualifying entry aborts the loop with
that error regardless of the entries after it, so no further entity is
added. -/
theorem C9_abortChain (localId dataDir : String) (fs : FS)
    (mkVs mkRgs mkRq mkSa : String → Except Err Entity) :
    (fs.variantsDir = none → ∀ ds, stageVariants mkVs dataDir fs ds
        = Except.error (Err.missingDirectory (dataDir ++ "/variants")))
    ∧ (fs.readsDir = none → ∀ ds, stageReads mkRgs dataDir fs ds
        = Except.error (Err.missingDirectory (dataDir ++ "/reads")))
    ∧ (fs.rnaQuantDir = none → ∀ ds, stageRna mkRq dataDir fs ds
        = Except.error (Err.missingDirectory (dataDir ++ "/rnaQuant")))
    ∧ (fs.seqAnnotDir = none → ∀ ds, stageSeqAnnot mkSa dataDir fs ds
        = Except.error (Err.missingDirectory (dataDir ++ "/sequenceAnnotations")))
    ∧ (∀ e, stageMeta localId dataDir fs = Except.error e →
        fsInit localId dataDir fs mkVs mkRgs mkRq mkSa = Except.error e)
    ∧ (∀ ds1 e, stageMeta localId dataDir fs = Except.ok ds1 →
        stageVariants mkVs dataDir fs ds1 = Except.error e →
        fsInit localId dataDir fs mkVs mkRgs mkRq mkSa = Except.error e)
    ∧ (∀ ds1 ds2 e, stageMeta localId dataDir fs = Except.ok ds1 →
        stageVariants mkVs dataDir fs ds1 = Except.ok ds2 →
        stageReads mkRgs dataDir fs ds2 = Except.error e →
        fsInit localId dataDir fs mkVs mkRgs mkRq mkSa = Except.error e)
    ∧ (∀ ds1 ds2 ds3 e, stageMeta localId dataDir fs = Except.ok ds1 →
        stageVariants mkVs dataDir fs ds1 = Except.ok ds2 →
        stageReads mkRgs dataDir fs ds2 = Except.ok ds3 →
        stageRna mkRq dataDir fs ds3 = Except.error e →
        fsInit localId dataDir fs mkVs mkRgs mkRq mkSa = Except.error e)
    ∧ (∀ ds1 ds2 ds3 ds4 e, stageMeta localId dataDir fs = Except.ok ds1 →
        stageVariants mkVs dataDir fs ds1 = Except.ok ds2 →
        stageReads mkRgs dataDir fs ds2 = Except.ok ds3 →
        stageRna mkRq dataDir fs ds3 = Except.ok ds4 →
        stageSeqAnnot mkSa dataDir fs ds4 = Except.error e →
        fsInit localId dataDir fs mkVs mkRgs mkRq mkSa = Except.error e)
    ∧ (∀ pre post dd ds ds2 e, scanVariantsList mkVs pre ds = Except.ok ds2 →
        dd.isDir = true → mkVs dd.name = Except.error e →
        scanVariantsList mkVs (pre ++ dd :: post) ds = Except.error e)
    ∧ (∀ pre post dd ds ds2 e, scanReadsList mkRgs pre ds = Except.ok ds2 →
        matchesBam dd.name = true → mkRgs (splitextRoot dd.name) = Except.error e →
        scanReadsList mkRgs (pre ++ dd :: post) ds = Except.error e) := by
  refine ⟨?_, ?_, ?_, ?_, ?_, ?_, ?_, ?_, ?_, ?_, ?_⟩
  · intro h ds
    unfold stageVariants listdir
    rw [h]
  · intro h ds
    unfold stageReads listdir
    rw [h]
  · intro h ds
    unfold stageRna listdir
    rw [h]
  · intro h ds
    unfold stageSeqAnnot listdir
    rw [h]
  · intro e h1
    simp only [fsInit, h1]
  · intro ds1 e h1 h2
    simp only [fsInit, h1, h2]
  · intro ds1 ds2 e h1 h2 h3
    simp only [fsInit, h1, h2, h3]
  · intro ds1 ds2 ds3 e h1 h2 h3 h4
    simp only [fsInit, h1, h2, h3, h4]
  · intro ds1 ds2 ds3 ds4 e h1 h2 h3 h4 h5
    simp only [fsInit, h1, h2, h3, h4, h5]
  · intro pre post dd ds ds2 e h1 h2 h3
    exact scanList_abort _ _ _ _ pre post dd ds ds2 e h1 h2 h3
  · intro pre post dd ds ds2 e h1 h2 h3
    exact scanList_abort _ _ _ _ pre post dd ds ds2 e h1 h2 h3

/-- C9 (witness): metadata and the (empty) variants scan succeed, then a
failing read-group-set constructor on `x.bam` makes the whole load fail
with that constructor's error. -/
theorem C9_witness :
    fsInit "d" "dd" fsC9 mkOkEnt mkBadRgs mkOkEnt mkOkEnt
      = Except.error (Err.constructionFailed "bad bam") :=
  (C9_abortChain "d" "dd" fsC9 mkOkEnt mkBadRgs mkOkEnt mkOkEnt).2.2.2.2.2.2.1
    (mkDataset "d") (mkDataset "d") (Err.constructionFailed "bad bam") rfl rfl rfl
